import Mathlib

/-!
Verification of the friendship / direct-conversation core of the codify-live
backend.  The definitions below are a shallow embedding of the handlers in
app/friendship/routers.py and app/chat/routers.py together with the helper
app/utils/get_username.py.  The relational store is modelled as lists of rows
kept in insertion order; a PostgREST order-by is modelled as a stable
insertion sort of that stored order; server-generated ids come from a
monotone counter and server timestamps from a clock field.  Each handler
returns an HTTP status on failure (Except Nat) together with the resulting
store.  The blanket "except Exception" clauses of the friendship router,
which replace any raised HTTPException by a 500 response, are modelled
explicitly by catch_all_500.
-/

namespace CodifyLive

instance {ε α : Type} [DecidableEq ε] [DecidableEq α] : DecidableEq (Except ε α) :=
  fun x y =>
  match x, y with
  | Except.error a, Except.error b =>
    if h : a = b then isTrue (by rw [h])
    else isFalse (by intro hc; injection hc; contradiction)
  | Except.error _, Except.ok _ => isFalse (by intro hc; injection hc)
  | Except.ok _, Except.error _ => isFalse (by intro hc; injection hc)
  | Except.ok a, Except.ok b =>
    if h : a = b then isTrue (by rw [h])
    else isFalse (by intro hc; injection hc; contradiction)

/-- A row of the profiles table (only the columns the handlers select). -/
structure Profile where
  id : String
  username : String
deriving DecidableEq

/-- The status column of friendships_requests.  Handlers only ever insert
Pending and delete rows outright, but the schema enum has four values. -/
inductive ReqStatus where
  | Pending
  | Accepted
  | Declined
  | Cancelled
deriving DecidableEq

/-- A row of the friendships_requests table. -/
structure RequestRow where
  id : Nat
  sender_id : String
  receiver_id : String
  status : ReqStatus
  created_at : Nat
deriving DecidableEq

/-- A row of the friendships table. -/
structure FriendshipRow where
  id : Nat
  user1_id : String
  user2_id : String
  created_at : Nat
deriving DecidableEq

/-- A row of the conversations table. -/
structure ConversationRow where
  id : Nat
  is_group : Bool
  created_at : Nat
deriving DecidableEq

/-- A row of the conversation_members table. -/
structure MemberRow where
  id : Nat
  conversation_id : Nat
  user_id : String
deriving DecidableEq

/-- A row of the direct_conversations table. -/
structure DirectConvRow where
  conversation_id : Nat
  user1_id : String
  user2_id : String
deriving DecidableEq

/-- A row of the messages table. -/
structure MessageRow where
  id : Nat
  conversation_id : Nat
  sender_id : String
  content : String
  created_at : Nat
deriving DecidableEq

/-- The relational store.  next_id models server-side id generation and
clock models the created_at timestamps the store assigns. -/
structure DB where
  profiles : List Profile
  requests : List RequestRow
  friendships : List FriendshipRow
  conversations : List ConversationRow
  conversation_members : List MemberRow
  direct_conversations : List DirectConvRow
  messages : List MessageRow
  next_id : Nat
  clock : Nat
deriving DecidableEq

/-- Lexicographic comparison of code-point sequences: exactly how Python
compares the identifier strings inside sorted([a, b]). -/
def charsLt : List Char → List Char → Bool
  | [], [] => false
  | [], _ :: _ => true
  | _ :: _, [] => false
  | a :: as, b :: bs =>
    if a.toNat < b.toNat then true
    else if b.toNat < a.toNat then false
    else charsLt as bs

/-- Python's a < b on identifier strings. -/
def strLt (a b : String) : Bool :=
  charsLt a.data b.data

/-- Python u1, u2 = sorted([a, b]): the canonical pair key used for
friendships and direct_conversations rows. -/
def sortedPair (a b : String) : String × String :=
  if strLt b a then (b, a) else (a, b)

/-- ASCII case folding of one code point: models lower() and the case
insensitivity of ilike. -/
def lowerCode (n : Nat) : Nat :=
  if 65 ≤ n ∧ n ≤ 90 then n + 32 else n

/-- The case-folded code points of a string. -/
def lowerCodes (s : String) : List Nat :=
  s.data.map fun c => lowerCode c.toNat

/-- startsWithCodes pat s: pat is a leading segment of s; the trailing
percent of the ilike pattern matches the remainder. -/
def startsWithCodes : List Nat → List Nat → Bool
  | [], _ => true
  | _ :: _, [] => false
  | a :: as, b :: bs => if a = b then startsWithCodes as bs else false

/-- ilike(stored, pattern-lowered plus percent): case-insensitive match of
the search term as a leading segment of the stored username. -/
def ilike_match (stored pattern : String) : Bool :=
  startsWithCodes (lowerCodes pattern) (lowerCodes stored)

/-- Stable insertion of x into l: x is placed after every y with le y x,
mirroring the stability of the store's order-by. -/
def sIns {α : Type} (le : α → α → Bool) (x : α) : List α → List α
  | [] => [x]
  | y :: l => if le y x then y :: sIns le x l else x :: y :: l

/-- The store's order-by, modelled as a stable sort of the stored row
order (rows are stored in insertion order). -/
def dbSort {α : Type} (le : α → α → Bool) (l : List α) : List α :=
  l.foldl (fun acc x => sIns le x acc) []

/-- Lookup of a friendships row by the canonical pair key, as performed by
create_friend_request_using_username, get_or_create_direct_conversation,
send_message and remove_friend. -/
def friendships_lookup (db : DB) (a b : String) : Option FriendshipRow :=
  db.friendships.find? fun f =>
    f.user1_id == (sortedPair a b).1 && f.user2_id == (sortedPair a b).2

/-- Lookup of a direct_conversations row by the canonical pair key, as
performed by get_or_create_direct_conversation. -/
def direct_conversations_lookup (db : DB) (a b : String) : Option DirectConvRow :=
  db.direct_conversations.find? fun d =>
    d.user1_id == (sortedPair a b).1 && d.user2_id == (sortedPair a b).2

/-- Lookup of a conversation_members row for (conversation, user), as
performed by send_message and get_messages. -/
def membership_lookup (db : DB) (cid : Nat) (uid : String) : Option MemberRow :=
  db.conversation_members.find? fun m =>
    m.conversation_id == cid && m.user_id == uid

/-- The user_ids list built by send_message from the conversation_members
rows of the conversation. -/
def conversation_user_ids (db : DB) (cid : Nat) : List String :=
  (db.conversation_members.filter fun m => m.conversation_id == cid).map
    fun m => m.user_id

/-- Models the blanket "except Exception: raise HTTPException(500)" clause
that wraps the whole body of accept_friend_request, decline_friend_request,
cancel_friend_request and remove_friend: fastapi.HTTPException is a subclass
of Exception, so every HTTPException raised inside the try block is caught
here and replaced by a 500 response. -/
def catch_all_500 {α : Type} : Except Nat α × DB → Except Nat α × DB
  | (Except.error _, db) => (Except.error 500, db)
  | r => r

/-- GET /friends/search/{username}: reject prefixes shorter than 3, then a
case-insensitive prefix match (ilike with a trailing percent wildcard),
ordered by username, limited to 10 rows; an empty result is a 404. -/
def username_search (db : DB) (username : String) : Except Nat (List Profile) :=
  if username.length < 3 then Except.error 400
  else
    let results :=
      ((dbSort (fun p q => !(strLt q.username p.username))
          (db.profiles.filter fun p => ilike_match p.username username)).take 10)
    if results.isEmpty then Except.error 404
    else Except.ok results

/-- POST /friends/request: resolve the receiver username, reject self
requests with 403, reject with 409 when any friendships_requests row exists
between the pair in either direction, reject with 409 when the canonical
pair is already a friendships row, else insert a Pending request. -/
def create_friend_request_using_username (db : DB) (sender_id receiver_username : String) :
    Except Nat RequestRow × DB :=
  match db.profiles.find? (fun p => p.username == receiver_username) with
  | none => (Except.error 404, db)
  | some prof =>
    let receiver_id := prof.id
    if sender_id = receiver_id then (Except.error 403, db)
    else
      match db.requests.find? (fun r =>
          (r.sender_id == sender_id && r.receiver_id == receiver_id) ||
          (r.sender_id == receiver_id && r.receiver_id == sender_id)) with
      | some _ => (Except.error 409, db)
      | none =>
        match friendships_lookup db sender_id receiver_id with
        | some _ => (Except.error 409, db)
        | none =>
          let row : RequestRow :=
            ⟨db.next_id, sender_id, receiver_id, ReqStatus.Pending, db.clock⟩
          (Except.ok row,
            { db with requests := db.requests ++ [row], next_id := db.next_id + 1 })

/-- Body of POST /friends/request/accept before the blanket except clause:
find the Pending row for the exact (sender, receiver) direction, delete it
by id, insert the friendship row under the canonical pair key. -/
def accept_friend_request_inner (db : DB) (receiver_id sender_id : String) :
    Except Nat FriendshipRow × DB :=
  match db.requests.find? (fun r =>
      r.receiver_id == receiver_id && r.sender_id == sender_id &&
      r.status == ReqStatus.Pending) with
  | none => (Except.error 404, db)
  | some req =>
    if receiver_id ≠ req.receiver_id then (Except.error 403, db)
    else
      let p := sortedPair sender_id receiver_id
      let row : FriendshipRow := ⟨db.next_id, p.1, p.2, db.clock⟩
      (Except.ok row,
        { db with
            requests := db.requests.filter fun x => x.id != req.id,
            friendships := db.friendships ++ [row],
            next_id := db.next_id + 1 })

/-- POST /friends/request/accept: the whole body sits in a try block whose
only handler is "except Exception", so raised HTTPExceptions become 500. -/
def accept_friend_request (db : DB) (receiver_id sender_id : String) :
    Except Nat FriendshipRow × DB :=
  catch_all_500 (accept_friend_request_inner db receiver_id sender_id)

/-- Body of DELETE /friends/request/decline/{sender_id} before the blanket
except clause: find the Pending row, then delete every matching Pending
row for that direction. -/
def decline_friend_request_inner (db : DB) (receiver_id sender_id : String) :
    Except Nat Bool × DB :=
  match db.requests.find? (fun r =>
      r.sender_id == sender_id && r.receiver_id == receiver_id &&
      r.status == ReqStatus.Pending) with
  | none => (Except.error 404, db)
  | some req =>
    if receiver_id ≠ req.receiver_id then (Except.error 403, db)
    else
      (Except.ok true,
        { db with
            requests := db.requests.filter fun r =>
              !(r.sender_id == sender_id && r.receiver_id == receiver_id &&
                r.status == ReqStatus.Pending) })

/-- DELETE /friends/request/decline/{sender_id}: wrapped by the blanket
except clause, so the 404 surfaces as 500. -/
def decline_friend_request (db : DB) (receiver_id sender_id : String) :
    Except Nat Bool × DB :=
  catch_all_500 (decline_friend_request_inner db receiver_id sender_id)

/-- Body of DELETE /friends/request/cancel/{receiver_id} before the blanket
except clause. -/
def cancel_friend_request_inner (db : DB) (sender_id receiver_id : String) :
    Except Nat Bool × DB :=
  match db.requests.find? (fun r =>
      r.sender_id == sender_id && r.receiver_id == receiver_id &&
      r.status == ReqStatus.Pending) with
  | none => (Except.error 404, db)
  | some req =>
    if sender_id ≠ req.sender_id then (Except.error 403, db)
    else
      (Except.ok true,
        { db with
            requests := db.requests.filter fun r =>
              !(r.sender_id == sender_id && r.receiver_id == receiver_id &&
                r.status == ReqStatus.Pending) })

/-- DELETE /friends/request/cancel/{receiver_id}: wrapped by the blanket
except clause, so the 404 surfaces as 500. -/
def cancel_friend_request (db : DB) (sender_id receiver_id : String) :
    Except Nat Bool × DB :=
  catch_all_500 (cancel_friend_request_inner db sender_id receiver_id)

/-- Body of DELETE /friends/remove/{other_user_id} before the blanket
except clause: look up the friendship by the canonical pair key and delete
every row with that key. -/
def remove_friend_inner (db : DB) (current_user_id other_user_id : String) :
    Except Nat Bool × DB :=
  match friendships_lookup db current_user_id other_user_id with
  | none => (Except.error 404, db)
  | some _ =>
    (Except.ok true,
      { db with
          friendships := db.friendships.filter fun f =>
            !(f.user1_id == (sortedPair current_user_id other_user_id).1 &&
              f.user2_id == (sortedPair current_user_id other_user_id).2) })

/-- DELETE /friends/remove/{other_user_id}: wrapped by the blanket except
clause, so the 404 surfaces as 500. -/
def remove_friend (db : DB) (current_user_id other_user_id : String) :
    Except Nat Bool × DB :=
  catch_all_500 (remove_friend_inner db current_user_id other_user_id)

/-- Result of POST /chat/conversations/direct. -/
structure DirectConvOut where
  conversation_id : Nat
  is_new : Bool
deriving DecidableEq

/-- POST /chat/conversations/direct: 403 unless the pair is a friendship,
return the existing direct conversation if one exists for the canonical
pair, else create the conversation, the two member rows (sender first) and
the direct_conversations mapping. -/
def get_or_create_direct_conversation (db : DB) (sender_id receiver_id : String) :
    Except Nat DirectConvOut × DB :=
  match friendships_lookup db sender_id receiver_id with
  | none => (Except.error 403, db)
  | some _ =>
    match direct_conversations_lookup db sender_id receiver_id with
    | some d => (Except.ok ⟨d.conversation_id, false⟩, db)
    | none =>
      let cid := db.next_id
      let p := sortedPair sender_id receiver_id
      (Except.ok ⟨cid, true⟩,
        { db with
            conversations := db.conversations ++ [⟨cid, false, db.clock⟩],
            conversation_members := db.conversation_members ++
              [⟨db.next_id + 1, cid, sender_id⟩, ⟨db.next_id + 2, cid, receiver_id⟩],
            direct_conversations := db.direct_conversations ++ [⟨cid, p.1, p.2⟩],
            next_id := db.next_id + 3 })

/-- POST /chat/messages: fetch the conversation's member rows, pick the
first member id different from the sender with an unguarded next(...) —
when no such member exists the StopIteration lands in the generic except
clause and the handler answers 500 — then require the canonical pair with
that member to still be a friendship (403), require the sender to be a
member (403), and append the message row. -/
def send_message (db : DB) (sender_id : String) (conversation_id : Nat)
    (content : String) : Except Nat (List MessageRow) × DB :=
  match (conversation_user_ids db conversation_id).find? (fun uid => uid != sender_id) with
  | none => (Except.error 500, db)
  | some other_user_id =>
    match friendships_lookup db sender_id other_user_id with
    | none => (Except.error 403, db)
    | some _ =>
      match membership_lookup db conversation_id sender_id with
      | none => (Except.error 403, db)
      | some _ =>
        let msg : MessageRow :=
          ⟨db.next_id, conversation_id, sender_id, content, db.clock⟩
        (Except.ok [msg],
          { db with messages := db.messages ++ [msg], next_id := db.next_id + 1 })

/-- app/utils/get_username.py: select username from profiles by id, take the
first row; a missing row raises (IndexError) and is converted to a 500. -/
def get_username (db : DB) (uid : String) : Except Nat String :=
  match db.profiles.find? (fun p => p.id == uid) with
  | some p => Except.ok p.username
  | none => Except.error 500

/-- A message as returned by GET /chat/messages/{conversation_id}: the
selected columns plus the resolved sender_username. -/
structure MessageOut where
  id : Nat
  sender_id : String
  sender_username : String
  content : String
  created_at : Nat
deriving DecidableEq

/-- The comparator of the order-by clause of the messages query:
created_at ascending. -/
def msgLe (m n : MessageRow) : Bool :=
  m.created_at ≤ n.created_at

/-- The messages of a conversation ordered by created_at ascending, as
returned by the store for the messages query of get_messages. -/
def messages_sorted (db : DB) (cid : Nat) : List MessageRow :=
  dbSort msgLe (db.messages.filter fun m => m.conversation_id == cid)

/-- The final_data loop of get_messages: resolve each sender's username in
order; the first failing lookup aborts the whole request. -/
def render_messages (db : DB) : List MessageRow → Except Nat (List MessageOut)
  | [] => Except.ok []
  | m :: rest =>
    match get_username db m.sender_id with
    | Except.error e => Except.error e
    | Except.ok u =>
      match render_messages db rest with
      | Except.error e => Except.error e
      | Except.ok outs =>
        Except.ok (⟨m.id, m.sender_id, u, m.content, m.created_at⟩ :: outs)

/-- GET /chat/messages/{conversation_id}: 404 when the conversation row is
absent, 403 when the caller is not a member, else the rendered ordered
messages (a failed username lookup surfaces as its 500). -/
def get_messages (db : DB) (user_id : String) (conversation_id : Nat) :
    Except Nat (List MessageOut) × DB :=
  match db.conversations.find? (fun c => c.id == conversation_id) with
  | none => (Except.error 404, db)
  | some _ =>
    match membership_lookup db conversation_id user_id with
    | none => (Except.error 403, db)
    | some _ => (render_messages db (messages_sorted db conversation_id), db)

/-- The username render_messages resolves for a sender whose profile row
exists (helper for stating get_messages results). -/
def username_of (db : DB) (uid : String) : String :=
  match db.profiles.find? (fun p => p.id == uid) with
  | some p => p.username
  | none => ""

/-- Two friendships rows represent the same unordered user pair. -/
def samePair (f g : FriendshipRow) : Prop :=
  (f.user1_id = g.user1_id ∧ f.user2_id = g.user2_id) ∨
  (f.user1_id = g.user2_id ∧ f.user2_id = g.user1_id)

instance (f g : FriendshipRow) : Decidable (samePair f g) := by
  unfold samePair
  infer_instance

/-- The order in which get_messages is specified to return messages:
strictly increasing created_at, ties broken by the insertion id. -/
def msgOrd (m n : MessageRow) : Prop :=
  m.created_at < n.created_at ∨
  (m.created_at = n.created_at ∧ m.id < n.id)

/-- msgOrd restated on rendered messages. -/
def outOrd (m n : MessageOut) : Prop :=
  m.created_at < n.created_at ∨
  (m.created_at = n.created_at ∧ m.id < n.id)

theorem charsLt_asymm : ∀ (x y : List Char), charsLt x y = true → charsLt y x = false := by
  intro x
  induction x with
  | nil =>
    intro y h
    cases y with
    | nil => simp [charsLt] at h
    | cons b bs => simp [charsLt]
  | cons a as ih =>
    intro y h
    cases y with
    | nil => simp [charsLt] at h
    | cons b bs =>
      rw [charsLt] at h ⊢
      rcases Nat.lt_trichotomy a.toNat b.toNat with hlt | heq | hgt
      · rw [if_neg (Nat.lt_asymm hlt), if_pos hlt]
      · rw [heq] at h ⊢
        rw [if_neg (Nat.lt_irrefl _), if_neg (Nat.lt_irrefl _)] at h
        rw [if_neg (Nat.lt_irrefl _), if_neg (Nat.lt_irrefl _)]
        exact ih bs h
      · rw [if_neg (Nat.lt_asymm hgt), if_pos hgt] at h
        exact absurd h (by simp)

theorem charsLt_conn : ∀ (x y : List Char),
    charsLt x y = false → charsLt y x = false → x = y := by
  intro x
  induction x with
  | nil =>
    intro y h1 h2
    cases y with
    | nil => rfl
    | cons b bs => simp [charsLt] at h1
  | cons a as ih =>
    intro y h1 h2
    cases y with
    | nil => simp [charsLt] at h2
    | cons b bs =>
      rw [charsLt] at h1 h2
      rcases Nat.lt_trichotomy a.toNat b.toNat with hlt | heq | hgt
      · rw [if_pos hlt] at h1
        exact absurd h1 (by simp)
      · rw [heq] at h1
        rw [if_neg (Nat.lt_irrefl _), if_neg (Nat.lt_irrefl _)] at h1
        rw [heq, if_neg (Nat.lt_irrefl _), if_neg (Nat.lt_irrefl _)] at h2
        have hab : a = b := Char.ext (UInt32.toNat.inj heq)
        rw [hab, ih bs h1 h2]
      · rw [if_pos hgt] at h2
        exact absurd h2 (by simp)

theorem string_data_inj {a b : String} (h : a.data = b.data) : a = b :=
  congrArg String.mk h

theorem strLt_asymm {a b : String} (h : strLt a b = true) : strLt b a = false :=
  charsLt_asymm a.data b.data h

theorem strLt_conn {a b : String} (h1 : strLt a b = false)
    (h2 : strLt b a = false) : a = b :=
  string_data_inj (charsLt_conn a.data b.data h1 h2)

theorem sortedPair_comm (a b : String) : sortedPair a b = sortedPair b a := by
  rw [sortedPair, sortedPair]
  cases h1 : strLt b a <;> cases h2 : strLt a b
  · simp only [Bool.false_eq_true, if_false]
    rw [strLt_conn h2 h1]
  · simp
  · simp
  · simp [strLt_asymm h2] at h1

theorem sortedPair_lt {a b : String} (h : a ≠ b) :
    strLt (sortedPair a b).1 (sortedPair a b).2 = true := by
  rw [sortedPair]
  cases h1 : strLt b a
  · cases h2 : strLt a b
    · exact absurd (strLt_conn h2 h1) h
    · simpa using h2
  · simpa using h1

theorem mem_sIns {α : Type} (le : α → α → Bool) (x y : α) (l : List α) :
    y ∈ sIns le x l ↔ y = x ∨ y ∈ l := by
  induction l with
  | nil => simp [sIns]
  | cons z l ih =>
    rw [sIns]
    cases h : le z x
    · simp only [Bool.false_eq_true, if_false, List.mem_cons]
    · simp only [if_true, List.mem_cons, ih]
      tauto

theorem mem_dbSort_aux {α : Type} (le : α → α → Bool) (y : α) :
    ∀ (l acc : List α),
      (y ∈ l.foldl (fun acc x => sIns le x acc) acc ↔ y ∈ acc ∨ y ∈ l) := by
  intro l
  induction l with
  | nil => intro acc; simp
  | cons x l ih =>
    intro acc
    simp only [List.foldl_cons]
    rw [ih, mem_sIns, List.mem_cons]
    tauto

theorem mem_dbSort {α : Type} (le : α → α → Bool) (y : α) (l : List α) :
    y ∈ dbSort le l ↔ y ∈ l := by
  unfold dbSort
  rw [mem_dbSort_aux]
  simp

theorem sIns_pairwise_msg (x : MessageRow) (acc : List MessageRow)
    (hs : acc.Pairwise msgOrd) (hid : ∀ y ∈ acc, y.id < x.id) :
    (sIns msgLe x acc).Pairwise msgOrd := by
  induction acc with
  | nil => simp [sIns]
  | cons y l ih =>
    rw [List.pairwise_cons] at hs
    obtain ⟨hy, hl⟩ := hs
    rw [sIns]
    cases h : msgLe y x
    · have hyx : x.created_at < y.created_at := by
        have h' : ¬ (y.created_at ≤ x.created_at) := by
          simpa [msgLe] using h
        exact lt_of_not_le h'
      simp only [Bool.false_eq_true, if_false]
      rw [List.pairwise_cons]
      refine ⟨?_, List.pairwise_cons.mpr ⟨hy, hl⟩⟩
      intro z hz
      rcases List.mem_cons.mp hz with rfl | hz'
      · exact Or.inl hyx
      · rcases hy z hz' with hlt | ⟨heq, _⟩
        · exact Or.inl (lt_trans hyx hlt)
        · exact Or.inl (heq ▸ hyx)
    · have hle : y.created_at ≤ x.created_at := by
        simpa [msgLe] using h
      simp only [if_true]
      rw [List.pairwise_cons]
      constructor
      · intro z hz
        rcases (mem_sIns msgLe x z l).mp hz with rfl | hz'
        · rcases lt_or_eq_of_le hle with hlt | heq
          · exact Or.inl hlt
          · exact Or.inr ⟨heq, hid y (List.mem_cons_self y l)⟩
        · exact hy z hz'
      · exact ih hl fun y' hy' => hid y' (List.mem_cons_of_mem y hy')

theorem dbSort_pairwise_msg_aux :
    ∀ (l acc : List MessageRow),
      acc.Pairwise msgOrd →
      (∀ y ∈ acc, ∀ x ∈ l, y.id < x.id) →
      l.Pairwise (fun a b => a.id < b.id) →
      (l.foldl (fun acc x => sIns msgLe x acc) acc).Pairwise msgOrd := by
  intro l
  induction l with
  | nil =>
    intro acc h _ _
    simpa using h
  | cons x l ih =>
    intro acc hacc hcross hl
    rw [List.pairwise_cons] at hl
    obtain ⟨hx, hl'⟩ := hl
    simp only [List.foldl_cons]
    apply ih
    · exact sIns_pairwise_msg x acc hacc fun y hy =>
        hcross y hy x (List.mem_cons_self x l)
    · intro y hy z hz
      rcases (mem_sIns msgLe x y acc).mp hy with rfl | hy'
      · exact hx z hz
      · exact hcross y hy' z (List.mem_cons_of_mem x hz)
    · exact hl'

theorem dbSort_pairwise_msg (l : List MessageRow)
    (h : l.Pairwise fun a b => a.id < b.id) :
    (dbSort msgLe l).Pairwise msgOrd :=
  dbSort_pairwise_msg_aux l [] List.Pairwise.nil (by simp) h

theorem render_messages_ok (db : DB) :
    ∀ rows : List MessageRow,
      (∀ m ∈ rows, (db.profiles.find? fun p => p.id == m.sender_id).isSome) →
      render_messages db rows =
        Except.ok (rows.map fun m =>
          ⟨m.id, m.sender_id, username_of db m.sender_id, m.content, m.created_at⟩) := by
  intro rows
  induction rows with
  | nil => intro _; rfl
  | cons m rest ih =>
    intro hall
    have hm := hall m (List.mem_cons_self m rest)
    obtain ⟨p, hp⟩ := Option.isSome_iff_exists.mp hm
    have hrest := ih fun x hx => hall x (List.mem_cons_of_mem m hx)
    rw [render_messages, get_username, hp, hrest]
    simp [username_of, hp]

/-- C1: a successful AcceptRequest deletes the Pending row for the exact
(sender, receiver) direction and inserts exactly one friendships row keyed
by the canonical pair, so the canonical-ordering and one-row-per-unordered-
pair invariants of the friendships table are preserved and exactly one row
exists for the accepted pair. -/
theorem accept_request_canonical (db : DB) (sender_id receiver_id : String)
    (req : RequestRow)
    (hne : sender_id ≠ receiver_id)
    (hfind : db.requests.find? (fun r =>
        r.receiver_id == receiver_id && r.sender_id == sender_id &&
        r.status == ReqStatus.Pending) = some req)
    (huniq : ∀ x ∈ db.requests,
        (x.receiver_id == receiver_id && x.sender_id == sender_id &&
         x.status == ReqStatus.Pending) = true → x = req)
    (hcanon : ∀ f ∈ db.friendships, strLt f.user1_id f.user2_id = true)
    (hpair : db.friendships.Pairwise fun f g => ¬ samePair f g)
    (hnotfr : friendships_lookup db sender_id receiver_id = none) :
    accept_friend_request db receiver_id sender_id =
      (Except.ok
        ⟨db.next_id, (sortedPair sender_id receiver_id).1,
          (sortedPair sender_id receiver_id).2, db.clock⟩,
        { db with
            requests := db.requests.filter fun x => x.id != req.id,
            friendships := db.friendships ++
              [⟨db.next_id, (sortedPair sender_id receiver_id).1,
                (sortedPair sender_id receiver_id).2, db.clock⟩],
            next_id := db.next_id + 1 }) ∧
    (∀ x ∈ (accept_friend_request db receiver_id sender_id).2.requests,
        ¬(x.receiver_id = receiver_id ∧ x.sender_id = sender_id ∧
          x.status = ReqStatus.Pending)) ∧
    (∀ f ∈ (accept_friend_request db receiver_id sender_id).2.friendships,
        strLt f.user1_id f.user2_id = true) ∧
    ((accept_friend_request db receiver_id sender_id).2.friendships.Pairwise
        fun f g => ¬ samePair f g) ∧
    ((accept_friend_request db receiver_id sender_id).2.friendships.countP
        fun f => f.user1_id == (sortedPair sender_id receiver_id).1 &&
                 f.user2_id == (sortedPair sender_id receiver_id).2) = 1 := by
  have hpred := List.find?_some hfind
  have hrecv : req.receiver_id = receiver_id := by
    simp only [Bool.and_eq_true, beq_iff_eq] at hpred
    exact hpred.1.1
  have hres : accept_friend_request db receiver_id sender_id =
      (Except.ok
        ⟨db.next_id, (sortedPair sender_id receiver_id).1,
          (sortedPair sender_id receiver_id).2, db.clock⟩,
        { db with
            requests := db.requests.filter fun x => x.id != req.id,
            friendships := db.friendships ++
              [⟨db.next_id, (sortedPair sender_id receiver_id).1,
                (sortedPair sender_id receiver_id).2, db.clock⟩],
            next_id := db.next_id + 1 }) := by
    rw [accept_friend_request, accept_friend_request_inner, hfind]
    dsimp only
    rw [if_neg (by simp [hrecv])]
    rfl
  have hlt := sortedPair_lt hne
  have hnone : ∀ f ∈ db.friendships,
      ¬(f.user1_id == (sortedPair sender_id receiver_id).1 &&
        f.user2_id == (sortedPair sender_id receiver_id).2) = true := by
    rw [friendships_lookup, List.find?_eq_none] at hnotfr
    exact hnotfr
  refine ⟨hres, ?_, ?_, ?_, ?_⟩
  · rw [hres]
    intro x hx hprop
    have hx' := List.mem_filter.mp hx
    have hxe : x = req := huniq x hx'.1 (by
      simp only [Bool.and_eq_true, beq_iff_eq]
      exact ⟨⟨hprop.1, hprop.2.1⟩, hprop.2.2⟩)
    have := hx'.2
    rw [hxe] at this
    simp at this
  · rw [hres]
    intro f hf
    rcases List.mem_append.mp hf with hf' | hf'
    · exact hcanon f hf'
    · rcases List.mem_singleton.mp hf' with rfl
      exact hlt
  · rw [hres]
    rw [List.pairwise_append]
    refine ⟨hpair, by simp, ?_⟩
    intro f hf g hg
    rcases List.mem_singleton.mp hg with rfl
    intro hsp
    rcases hsp with ⟨h1, h2⟩ | ⟨h1, h2⟩
    · exact hnone f hf (by simp [h1, h2])
    · have hflt := hcanon f hf
      rw [h1, h2] at hflt
      simp [strLt_asymm hlt] at hflt
  · rw [hres]
    rw [List.countP_append]
    have h0 : db.friendships.countP
        (fun f => f.user1_id == (sortedPair sender_id receiver_id).1 &&
                  f.user2_id == (sortedPair sender_id receiver_id).2) = 0 := by
      rw [List.countP_eq_zero]
      exact hnone
    rw [h0]
    simp [List.countP_cons]

/-- C3: the canonical pair key of accept_friend_request, remove_friend and
get_or_create_direct_conversation is symmetric, and the friendships and
direct_conversations lookups keyed by it therefore coincide for (a, b) and
(b, a). -/
theorem pair_key_symmetric (db : DB) (a b : String) (h : a ≠ b) :
    sortedPair a b = sortedPair b a ∧
    friendships_lookup db a b = friendships_lookup db b a ∧
    direct_conversations_lookup db a b = direct_conversations_lookup db b a := by
  refine ⟨sortedPair_comm a b, ?_, ?_⟩
  · rw [friendships_lookup, friendships_lookup, sortedPair_comm a b]
  · rw [direct_conversations_lookup, direct_conversations_lookup, sortedPair_comm a b]

/-- C2: while any friendships_requests row exists between a pair in either
direction — in particular an open Pending one — a further CreateRequest for
the same unordered pair, from either side, answers 409 Conflict and leaves
the store unchanged. -/
theorem create_request_conflict (db : DB) (a b uname : String) (r : RequestRow)
    (hne : a ≠ b)
    (hprof : db.profiles.find? (fun p => p.username == uname) = some ⟨b, uname⟩)
    (hmem : r ∈ db.requests)
    (hdir : (r.sender_id = a ∧ r.receiver_id = b) ∨
            (r.sender_id = b ∧ r.receiver_id = a))
    (hpend : r.status = ReqStatus.Pending) :
    create_friend_request_using_username db a uname = (Except.error 409, db) := by
  rw [create_friend_request_using_username, hprof]
  dsimp only
  rw [if_neg hne]
  have hsome : (db.requests.find? fun x =>
      (x.sender_id == a && x.receiver_id == b) ||
      (x.sender_id == b && x.receiver_id == a)).isSome := by
    rw [List.find?_isSome]
    refine ⟨r, hmem, ?_⟩
    rcases hdir with ⟨h1, h2⟩ | ⟨h1, h2⟩ <;> simp [h1, h2]
  obtain ⟨y, hy⟩ := Option.isSome_iff_exists.mp hsome
  rw [hy]

/-- C4: from a state where the pair is a friendship and no direct
conversation exists for its canonical key, GetOrCreate returns is_new true
with the fresh conversation id, and an immediately following GetOrCreate
returns is_new false with the identical conversation id, leaving the store
as the first call produced it. -/
theorem get_or_create_idempotent (db : DB) (a b : String)
    (hf : (friendships_lookup db a b).isSome)
    (hd : direct_conversations_lookup db a b = none) :
    (get_or_create_direct_conversation db a b).1 = Except.ok ⟨db.next_id, true⟩ ∧
    get_or_create_direct_conversation
        (get_or_create_direct_conversation db a b).2 a b =
      (Except.ok ⟨db.next_id, false⟩,
        (get_or_create_direct_conversation db a b).2) := by
  obtain ⟨f, hfe⟩ := Option.isSome_iff_exists.mp hf
  have h1 : get_or_create_direct_conversation db a b =
      (Except.ok ⟨db.next_id, true⟩,
        { db with
            conversations := db.conversations ++ [⟨db.next_id, false, db.clock⟩],
            conversation_members := db.conversation_members ++
              [⟨db.next_id + 1, db.next_id, a⟩, ⟨db.next_id + 2, db.next_id, b⟩],
            direct_conversations := db.direct_conversations ++
              [⟨db.next_id, (sortedPair a b).1, (sortedPair a b).2⟩],
            next_id := db.next_id + 3 }) := by
    rw [get_or_create_direct_conversation, hfe, hd]
  refine ⟨by rw [h1], ?_⟩
  rw [h1]
  dsimp only
  rw [get_or_create_direct_conversation]
  have hf2 : friendships_lookup
      { db with
          conversations := db.conversations ++ [⟨db.next_id, false, db.clock⟩],
          conversation_members := db.conversation_members ++
            [⟨db.next_id + 1, db.next_id, a⟩, ⟨db.next_id + 2, db.next_id, b⟩],
          direct_conversations := db.direct_conversations ++
            [⟨db.next_id, (sortedPair a b).1, (sortedPair a b).2⟩],
          next_id := db.next_id + 3 } a b = some f := by
    rw [friendships_lookup] at hfe ⊢
    exact hfe
  have hd2 : direct_conversations_lookup
      { db with
          conversations := db.conversations ++ [⟨db.next_id, false, db.clock⟩],
          conversation_members := db.conversation_members ++
            [⟨db.next_id + 1, db.next_id, a⟩, ⟨db.next_id + 2, db.next_id, b⟩],
          direct_conversations := db.direct_conversations ++
            [⟨db.next_id, (sortedPair a b).1, (sortedPair a b).2⟩],
          next_id := db.next_id + 3 } a b =
      some ⟨db.next_id, (sortedPair a b).1, (sortedPair a b).2⟩ := by
    rw [direct_conversations_lookup]
    dsimp only
    rw [List.find?_append]
    rw [direct_conversations_lookup] at hd
    rw [hd]
    simp [List.find?_cons]
  rw [hf2, hd2]

/-- C6 counterexample: a conversation row with no member rows at all.  The
caller is certainly not a ConversationMember, yet send_message answers 500
(the unguarded next(...) over the empty member list), not 403 Forbidden. -/
def dbC6 : DB := ⟨[], [], [], [⟨1, false, 0⟩], [], [], [], 2, 0⟩

/-- C6: refutation of the claim as stated.  In dbC6 the sender is not a
member of conversation 1 (it has no members), but Send answers 500 rather
than Forbidden. -/
theorem send_message_nonmember_not_forbidden :
    (∀ m ∈ dbC6.conversation_members,
        ¬(m.conversation_id = 1 ∧ m.user_id = "a")) ∧
    send_message dbC6 "a" 1 "hi" = (Except.error 500, dbC6) ∧
    (send_message dbC6 "a" 1 "hi").1 ≠ Except.error 403 := by
  refine ⟨by decide, by decide, by decide⟩

/-- C6 (amended): provided the conversation has at least one member other
than the sender, Send by a non-member fails Forbidden; and Send into a
conversation whose first other member is no longer a friend of the sender
fails Forbidden even though the member rows still exist.  In both cases the
store — in particular the messages table — is unchanged. -/
theorem send_message_forbidden (db1 db2 : DB) (s1 s2 o t1 t2 : String)
    (c1 c2 : Nat)
    (h1other : ∃ m ∈ db1.conversation_members,
        m.conversation_id = c1 ∧ m.user_id ≠ s1)
    (h1mem : ∀ m ∈ db1.conversation_members,
        ¬(m.conversation_id = c1 ∧ m.user_id = s1))
    (h2other : (conversation_user_ids db2 c2).find? (fun uid => uid != s2) = some o)
    (h2fr : friendships_lookup db2 s2 o = none) :
    send_message db1 s1 c1 t1 = (Except.error 403, db1) ∧
    send_message db2 s2 c2 t2 = (Except.error 403, db2) := by
  constructor
  · obtain ⟨m, hm, hmc, hms⟩ := h1other
    have hsome : ((conversation_user_ids db1 c1).find? fun uid => uid != s1).isSome := by
      rw [List.find?_isSome]
      refine ⟨m.user_id, ?_, by simpa using hms⟩
      rw [conversation_user_ids, List.mem_map]
      exact ⟨m, List.mem_filter.mpr ⟨hm, by simp [hmc]⟩, rfl⟩
    obtain ⟨u, hu⟩ := Option.isSome_iff_exists.mp hsome
    rw [send_message, hu]
    dsimp only
    have hnomem : membership_lookup db1 c1 s1 = none := by
      rw [membership_lookup, List.find?_eq_none]
      intro x hx
      have := h1mem x hx
      simp only [Bool.and_eq_true, beq_iff_eq]
      tauto
    cases hfl : friendships_lookup db1 s1 u with
    | none => rfl
    | some f =>
      dsimp only
      rw [hnomem]
  · rw [send_message, h2other]
    dsimp only
    rw [h2fr]

/-- C8: for a member caller of an existing conversation whose message
senders all have profile rows, get_messages succeeds and returns the
conversation's messages in non-decreasing created_at order with ties broken
by insertion id (ids are assigned from the store's monotone counter, which
the Pairwise hypothesis expresses). -/
theorem get_messages_sorted (db : DB) (uid : String) (cid : Nat)
    (hconv : (db.conversations.find? fun c => c.id == cid).isSome)
    (hmem : (membership_lookup db cid uid).isSome)
    (hprof : ∀ m ∈ db.messages, m.conversation_id = cid →
        (db.profiles.find? fun p => p.id == m.sender_id).isSome)
    (hids : db.messages.Pairwise fun a b => a.id < b.id) :
    get_messages db uid cid =
      (Except.ok ((messages_sorted db cid).map fun m =>
        ⟨m.id, m.sender_id, username_of db m.sender_id, m.content, m.created_at⟩),
        db) ∧
    ((messages_sorted db cid).map fun m =>
        (⟨m.id, m.sender_id, username_of db m.sender_id, m.content,
          m.created_at⟩ : MessageOut)).Pairwise outOrd := by
  obtain ⟨c, hc⟩ := Option.isSome_iff_exists.mp hconv
  obtain ⟨mm, hmm⟩ := Option.isSome_iff_exists.mp hmem
  have hall : ∀ m ∈ messages_sorted db cid,
      (db.profiles.find? fun p => p.id == m.sender_id).isSome := by
    intro m hm
    rw [messages_sorted, mem_dbSort, List.mem_filter] at hm
    exact hprof m hm.1 (by simpa using hm.2)
  have hrend := render_messages_ok db (messages_sorted db cid) hall
  have hsorted : (messages_sorted db cid).Pairwise msgOrd := by
    apply dbSort_pairwise_msg
    exact List.Pairwise.sublist (List.filter_sublist _) hids
  constructor
  · rw [get_messages, hc, hmm, hrend]
  · rw [List.pairwise_map]
    exact hsorted.imp fun h => h

/-- C9: a username search whose prefix has at least 3 characters but
matches no stored username (case-insensitively) answers 404 rather than an
empty list. -/
theorem username_search_no_match_404 (db : DB) (username : String)
    (hlen : 3 ≤ username.length)
    (hnone : ∀ p ∈ db.profiles, ilike_match p.username username = false) :
    username_search db username = Except.error 404 := by
  rw [username_search, if_neg (by omega)]
  have hfil : db.profiles.filter
      (fun p => ilike_match p.username username) = [] := by
    rw [List.filter_eq_nil_iff]
    intro p hp
    simp [hnone p hp]
  dsimp only
  rw [hfil]
  rfl

/-- C10: when the named conversation has no member row with a user id
different from the sender's — a nonexistent conversation included — Send
answers 500 (the unguarded first-element selection raises and lands in the
generic exception handler) and appends nothing. -/
theorem send_message_no_other_member_500 (db : DB) (s t : String) (cid : Nat)
    (h : ∀ m ∈ db.conversation_members, m.conversation_id = cid → m.user_id = s) :
    send_message db s cid t = (Except.error 500, db) := by
  have hnone : (conversation_user_ids db cid).find? (fun uid => uid != s) = none := by
    rw [List.find?_eq_none]
    intro uid huid
    rw [conversation_user_ids, List.mem_map] at huid
    obtain ⟨m, hm, rfl⟩ := huid
    have hm' := List.mem_filter.mp hm
    have hcid : m.conversation_id = cid := by simpa using hm'.2
    simp [h m hm'.1 hcid]
  rw [send_message, hnone]

/-- C5 state: no friendships_requests rows at all, so no Pending row exists
for any direction. -/
def dbC5 : DB := ⟨[], [], [], [], [], [], [], 1, 0⟩

/-- C5: evaluation of the code at the failing input.  With no Pending row
for the named direction, Accept, Decline and Cancel each answer 500 — their
HTTPException(404) is caught by the blanket except clause — contradicting
the claim and the handlers' own docstrings, which promise 404 NotFound.
The store is left unchanged. -/
theorem resolve_missing_request_surfaces_500 :
    accept_friend_request dbC5 "b" "a" = (Except.error 500, dbC5) ∧
    decline_friend_request dbC5 "b" "a" = (Except.error 500, dbC5) ∧
    cancel_friend_request dbC5 "a" "b" = (Except.error 500, dbC5) := by
  refine ⟨rfl, rfl, rfl⟩

/-- C7 state: a single profile; the caller is its owner. -/
def dbC7 : DB := ⟨[⟨"a", "alice"⟩], [], [], [], [], [], [], 1, 0⟩

/-- C7: evaluation of the code at the failing input.  A request whose
resolved receiver equals the sender answers 403 Forbidden — not the 400/405
InvalidOperation the claim and the handler docstring promise — and no
friendships_requests row is inserted. -/
theorem self_request_surfaces_403 :
    create_friend_request_using_username dbC7 "a" "alice" =
      (Except.error 403, dbC7) := by
  decide

/-- C1 witness state: one Pending request from a to b, no friendships. -/
def dbC1 : DB := ⟨[], [⟨1, "a", "b", ReqStatus.Pending, 0⟩], [], [], [], [], [], 5, 9⟩

/-- C1 witness: accept_request_canonical applied to dbC1. -/
theorem accept_request_canonical_witness :
    ("a" : String) ≠ "b" ∧
    dbC1.requests.find? (fun r =>
        r.receiver_id == "b" && r.sender_id == "a" &&
        r.status == ReqStatus.Pending) = some ⟨1, "a", "b", ReqStatus.Pending, 0⟩ ∧
    (∀ x ∈ dbC1.requests,
        (x.receiver_id == "b" && x.sender_id == "a" &&
         x.status == ReqStatus.Pending) = true →
        x = ⟨1, "a", "b", ReqStatus.Pending, 0⟩) ∧
    (∀ f ∈ dbC1.friendships, strLt f.user1_id f.user2_id = true) ∧
    dbC1.friendships.Pairwise (fun f g => ¬ samePair f g) ∧
    friendships_lookup dbC1 "a" "b" = none ∧
    (accept_friend_request dbC1 "b" "a" =
      (Except.ok
        ⟨dbC1.next_id, (sortedPair "a" "b").1, (sortedPair "a" "b").2, dbC1.clock⟩,
        { dbC1 with
            requests := dbC1.requests.filter fun x =>
              x.id != (⟨1, "a", "b", ReqStatus.Pending, 0⟩ : RequestRow).id,
            friendships := dbC1.friendships ++
              [⟨dbC1.next_id, (sortedPair "a" "b").1, (sortedPair "a" "b").2,
                dbC1.clock⟩],
            next_id := dbC1.next_id + 1 }) ∧
      (∀ x ∈ (accept_friend_request dbC1 "b" "a").2.requests,
          ¬(x.receiver_id = "b" ∧ x.sender_id = "a" ∧
            x.status = ReqStatus.Pending)) ∧
      (∀ f ∈ (accept_friend_request dbC1 "b" "a").2.friendships,
          strLt f.user1_id f.user2_id = true) ∧
      ((accept_friend_request dbC1 "b" "a").2.friendships.Pairwise
          fun f g => ¬ samePair f g) ∧
      ((accept_friend_request dbC1 "b" "a").2.friendships.countP
          fun f => f.user1_id == (sortedPair "a" "b").1 &&
                   f.user2_id == (sortedPair "a" "b").2) = 1) :=
  ⟨by decide, by decide, by decide, by decide, by decide, by decide,
    accept_request_canonical dbC1 "a" "b" ⟨1, "a", "b", ReqStatus.Pending, 0⟩
      (by decide) (by decide) (by decide) (by decide) (by decide) (by decide)⟩

/-- C2 witness state: b's profile plus a Pending request b→a. -/
def dbC2 : DB :=
  ⟨[⟨"b", "bob"⟩], [⟨3, "b", "a", ReqStatus.Pending, 0⟩], [], [], [], [], [], 4, 0⟩

/-- C2 witness: create_request_conflict applied to dbC2 with the request
going the opposite direction to the open one. -/
theorem create_request_conflict_witness :
    ("a" : String) ≠ "b" ∧
    dbC2.profiles.find? (fun p => p.username == "bob") = some ⟨"b", "bob"⟩ ∧
    (⟨3, "b", "a", ReqStatus.Pending, 0⟩ : RequestRow) ∈ dbC2.requests ∧
    (((⟨3, "b", "a", ReqStatus.Pending, 0⟩ : RequestRow).sender_id = "a" ∧
      (⟨3, "b", "a", ReqStatus.Pending, 0⟩ : RequestRow).receiver_id = "b") ∨
     ((⟨3, "b", "a", ReqStatus.Pending, 0⟩ : RequestRow).sender_id = "b" ∧
      (⟨3, "b", "a", ReqStatus.Pending, 0⟩ : RequestRow).receiver_id = "a")) ∧
    (⟨3, "b", "a", ReqStatus.Pending, 0⟩ : RequestRow).status = ReqStatus.Pending ∧
    create_friend_request_using_username dbC2 "a" "bob" = (Except.error 409, dbC2) :=
  ⟨by decide, by decide, by decide, by decide, by decide,
    create_request_conflict dbC2 "a" "b" "bob" ⟨3, "b", "a", ReqStatus.Pending, 0⟩
      (by decide) (by decide) (by decide) (by decide) (by decide)⟩

/-- C3 witness state: one friendship row and one direct conversation. -/
def dbC3 : DB := ⟨[], [], [⟨1, "a", "b", 0⟩], [], [], [⟨9, "a", "b"⟩], [], 2, 0⟩

/-- C3 witness: pair_key_symmetric applied to dbC3 and the distinct
identifiers a and b. -/
theorem pair_key_symmetric_witness :
    ("a" : String) ≠ "b" ∧
    (sortedPair "a" "b" = sortedPair "b" "a" ∧
     friendships_lookup dbC3 "a" "b" = friendships_lookup dbC3 "b" "a" ∧
     direct_conversations_lookup dbC3 "a" "b" =
       direct_conversations_lookup dbC3 "b" "a") :=
  ⟨by decide, pair_key_symmetric dbC3 "a" "b" (by decide)⟩

/-- C4 witness state: a and b are friends, no direct conversation yet. -/
def dbC4 : DB := ⟨[], [], [⟨1, "a", "b", 0⟩], [], [], [], [], 7, 3⟩

/-- C4 witness: get_or_create_idempotent applied to dbC4. -/
theorem get_or_create_idempotent_witness :
    (friendships_lookup dbC4 "a" "b").isSome ∧
    direct_conversations_lookup dbC4 "a" "b" = none ∧
    ((get_or_create_direct_conversation dbC4 "a" "b").1 =
        Except.ok ⟨dbC4.next_id, true⟩ ∧
      get_or_create_direct_conversation
          (get_or_create_direct_conversation dbC4 "a" "b").2 "a" "b" =
        (Except.ok ⟨dbC4.next_id, false⟩,
          (get_or_create_direct_conversation dbC4 "a" "b").2)) :=
  ⟨by decide, by decide,
    get_or_create_idempotent dbC4 "a" "b" (by decide) (by decide)⟩

/-- C6 witness state 1: conversation 5 has the single member b; a is not a
member and is not friends with b. -/
def dbC6a : DB := ⟨[], [], [], [⟨5, false, 0⟩], [⟨1, 5, "b"⟩], [], [], 6, 0⟩

/-- C6 witness state 2: direct conversation 5 between a and b whose
friendship row has been removed; both member rows remain. -/
def dbC6b : DB :=
  ⟨[], [], [], [⟨5, false, 0⟩], [⟨1, 5, "a"⟩, ⟨2, 5, "b"⟩], [⟨5, "a", "b"⟩], [], 6, 0⟩

/-- C6 witness: send_message_forbidden applied to dbC6a and dbC6b. -/
theorem send_message_forbidden_witness :
    (∃ m ∈ dbC6a.conversation_members, m.conversation_id = 5 ∧ m.user_id ≠ "a") ∧
    (∀ m ∈ dbC6a.conversation_members,
        ¬(m.conversation_id = 5 ∧ m.user_id = "a")) ∧
    (conversation_user_ids dbC6b 5).find? (fun uid => uid != "a") = some "b" ∧
    friendships_lookup dbC6b "a" "b" = none ∧
    (send_message dbC6a "a" 5 "hi" = (Except.error 403, dbC6a) ∧
     send_message dbC6b "a" 5 "yo" = (Except.error 403, dbC6b)) :=
  ⟨⟨⟨1, 5, "b"⟩, by decide, by decide, by decide⟩, by decide, by decide, by decide,
    send_message_forbidden dbC6a dbC6b "a" "a" "b" "hi" "yo" 5 5
      ⟨⟨1, 5, "b"⟩, by decide, by decide, by decide⟩
      (by decide) (by decide) (by decide)⟩

/-- C8 witness state: conversation 5 with members a and b and three
messages, two of which share a created_at timestamp. -/
def dbC8 : DB :=
  ⟨[⟨"a", "alice"⟩, ⟨"b", "bob"⟩], [], [],
   [⟨5, false, 0⟩], [⟨1, 5, "a"⟩, ⟨2, 5, "b"⟩], [],
   [⟨10, 5, "a", "m1", 100⟩, ⟨11, 5, "b", "m2", 50⟩, ⟨12, 5, "a", "m3", 100⟩],
   13, 0⟩

/-- C8 witness: get_messages_sorted applied to dbC8. -/
theorem get_messages_sorted_witness :
    (dbC8.conversations.find? fun c => c.id == 5).isSome ∧
    (membership_lookup dbC8 5 "a").isSome ∧
    (∀ m ∈ dbC8.messages, m.conversation_id = 5 →
        (dbC8.profiles.find? fun p => p.id == m.sender_id).isSome) ∧
    dbC8.messages.Pairwise (fun a b => a.id < b.id) ∧
    (get_messages dbC8 "a" 5 =
      (Except.ok ((messages_sorted dbC8 5).map fun m =>
        ⟨m.id, m.sender_id, username_of dbC8 m.sender_id, m.content,
          m.created_at⟩), dbC8) ∧
     ((messages_sorted dbC8 5).map fun m =>
        (⟨m.id, m.sender_id, username_of dbC8 m.sender_id, m.content,
          m.created_at⟩ : MessageOut)).Pairwise outOrd) :=
  ⟨by decide, by decide, by decide, by decide,
    get_messages_sorted dbC8 "a" 5 (by decide) (by decide) (by decide) (by decide)⟩

/-- C9 witness state: a single profile that does not match the prefix. -/
def dbC9 : DB := ⟨[⟨"b", "bob"⟩], [], [], [], [], [], [], 1, 0⟩

/-- C9 witness: username_search_no_match_404 applied to dbC9. -/
theorem username_search_no_match_404_witness :
    3 ≤ ("xyz" : String).length ∧
    (∀ p ∈ dbC9.profiles, ilike_match p.username "xyz" = false) ∧
    username_search dbC9 "xyz" = Except.error 404 :=
  ⟨by decide, by decide,
    username_search_no_match_404 dbC9 "xyz" (by decide) (by decide)⟩

/-- C10 witness state: conversation 1 whose only member is the sender. -/
def dbC10 : DB := ⟨[], [], [], [⟨1, false, 0⟩], [⟨1, 1, "a"⟩], [], [], 2, 0⟩

/-- C10 witness: send_message_no_other_member_500 applied to dbC10. -/
theorem send_message_no_other_member_500_witness :
    (∀ m ∈ dbC10.conversation_members, m.conversation_id = 1 → m.user_id = "a") ∧
    send_message dbC10 "a" 1 "hi" = (Except.error 500, dbC10) :=
  ⟨by decide, send_message_no_other_member_500 dbC10 "a" "hi" 1 (by decide)⟩

end CodifyLive
